import Mathlib

/-!
# openclaw-mcp-adapter — connection pool and call dispatch, shallowly embedded

Model of `src/mcp-client.ts` (`McpClientPool`), the host glue in
`src/index.ts` (the registered tools' `execute` entry points) and the
configuration data model (`ServerConfig` from `src/config.ts`).

The external MCP SDK (protocol client and transports) is modelled by an
`Env` of outcome oracles, indexed by how many operations of each kind the
pool has issued so far; every pool method becomes an explicit
state-passing function.  JavaScript `Map` objects become association
lists with JS `Map.set` / `Map.delete` semantics; a thrown JS value is an
`Except.error` carrying the string `String(err)` that
`isConnectionError` inspects.  `console.warn` lines emitted by the
schema advisory are accumulated in the state (`console.log` diagnostics
carry no information the pool reads back and are not modelled).
-/

namespace Mcp

/-- `src/config.ts` `ServerConfig`: the connection recipe for one server. -/
structure ServerConfig where
  name : String
  transport : String
  command : Option String := none
  args : Option (List String) := none
  cwd : Option String := none
  env : Option (List (String × String)) := none
  url : Option String := none
  headers : Option (List (String × String)) := none
  allowPrivateUrls : Option Bool := none
  timeout : Option Nat := none
deriving DecidableEq

/-- JavaScript runtime values, as far as `typeof`, property membership and
property access observe them.  `func` stands for any function value — in
particular the methods an object or array inherits from its prototype
chain, which string-keyed `in` and property reads do see. -/
inductive JsValue where
  | undefined : JsValue
  | null : JsValue
  | bool : Bool → JsValue
  | num : Int → JsValue
  | str : String → JsValue
  | func : JsValue
  | arr : List JsValue → JsValue
  | obj : List (String × JsValue) → JsValue

/-- JS `typeof` (note `typeof null` and `typeof []` are both `"object"`). -/
def jsTypeof : JsValue → String
  | .undefined => "undefined"
  | .null => "object"
  | .bool _ => "boolean"
  | .num _ => "number"
  | .str _ => "string"
  | .func => "function"
  | .arr _ => "object"
  | .obj _ => "object"

/-- Association-list lookup with JS `Map.get` semantics (keys are unique in
a real `Map`, so first match suffices). -/
def jsMapGet {α : Type} : List (String × α) → String → Option α
  | [], _ => none
  | (k', v) :: rest, k => if k' = k then some v else jsMapGet rest k

/-- JS `Map.set`: replace in place if the key exists, else append. -/
def jsMapSet {α : Type} : List (String × α) → String → α → List (String × α)
  | [], k, v => [(k, v)]
  | (k', v') :: rest, k, v =>
    if k' = k then (k, v) :: rest else (k', v') :: jsMapSet rest k v

/-- JS `Map.delete`: remove the (unique) entry for the key. -/
def jsMapDelete {α : Type} : List (String × α) → String → List (String × α)
  | [], _ => []
  | (k', v') :: rest, k => if k' = k then rest else (k', v') :: jsMapDelete rest k

/-- The keys of a JS `Map` modelled as an association list. -/
def jsMapKeys {α : Type} (m : List (String × α)) : List String :=
  m.map Prod.fst

/-- The string-keyed members of `Object.prototype` (ECMA-262, with the
Annex B accessors), which `in` and property reads reach through the
prototype chain of every plain object and array.  All are methods
(`typeof` `"function"`) except the `__proto__` accessor, whose read
yields the prototype object itself — modelled, to the granularity
`typeof` observes, as an object value. -/
def objectProtoProps : List (String × JsValue) :=
  [("constructor", .func), ("hasOwnProperty", .func), ("isPrototypeOf", .func),
   ("propertyIsEnumerable", .func), ("toLocaleString", .func), ("toString", .func),
   ("valueOf", .func), ("__defineGetter__", .func), ("__defineSetter__", .func),
   ("__lookupGetter__", .func), ("__lookupSetter__", .func), ("__proto__", .obj [])]

/-- The string-keyed members of `Array.prototype` (ECMA-262 through
ES2023, as in current Node): all methods, shadowing `Object.prototype`'s
`constructor`/`toString`/`toLocaleString`. -/
def arrayProtoProps : List (String × JsValue) :=
  [("at", .func), ("concat", .func), ("constructor", .func), ("copyWithin", .func),
   ("entries", .func), ("every", .func), ("fill", .func), ("filter", .func),
   ("find", .func), ("findIndex", .func), ("findLast", .func), ("findLastIndex", .func),
   ("flat", .func), ("flatMap", .func), ("forEach", .func), ("includes", .func),
   ("indexOf", .func), ("join", .func), ("keys", .func), ("lastIndexOf", .func),
   ("map", .func), ("pop", .func), ("push", .func), ("reduce", .func),
   ("reduceRight", .func), ("reverse", .func), ("shift", .func), ("slice", .func),
   ("some", .func), ("sort", .func), ("splice", .func), ("toLocaleString", .func),
   ("toReversed", .func), ("toSorted", .func), ("toSpliced", .func), ("toString", .func),
   ("unshift", .func), ("values", .func), ("with", .func)]

/-- Own string-keyed properties of a JS value: an object's fields, or an
array's index-keyed elements together with its (non-enumerable, but
`in`-visible and readable) `length`. -/
def ownProps : JsValue → List (String × JsValue)
  | .obj fs => fs
  | .arr xs => (xs.enum.map fun p => (toString p.1, p.2)) ++ [("length", .num xs.length)]
  | _ => []

/-- Properties an object or array inherits through its prototype chain
(`Array.prototype` then `Object.prototype` for arrays). -/
def inheritedProps : JsValue → List (String × JsValue)
  | .obj _ => objectProtoProps
  | .arr _ => arrayProtoProps ++ objectProtoProps
  | _ => []

/-- The string-keyed properties `in` and property reads see on a JS
value: own properties first (shadowing), then the prototype chain. -/
def objEntries (v : JsValue) : List (String × JsValue) :=
  ownProps v ++ inheritedProps v

/-- JS `field in obj`: own property or one reached through the prototype
chain (`"toString" in {}` is `true`). -/
def hasField (args : JsValue) (f : String) : Bool :=
  (jsMapGet (objEntries args) f).isSome

/-- JS `obj[field]`: own property first, then the prototype chain; absent
properties read as `undefined`. -/
def getField (args : JsValue) (f : String) : JsValue :=
  (jsMapGet (objEntries args) f).getD .undefined

/-- JS `v === null || v === undefined`. -/
def isNullish : JsValue → Bool
  | .null => true
  | .undefined => true
  | _ => false

/-- The guard `typeof args === "object" && args !== null` of
`warnOnSchemaViolations`. -/
def isStructured : JsValue → Bool
  | .obj _ => true
  | .arr _ => true
  | _ => false

/-- `src/mcp-client.ts` `ToolSchema`: the slice of a JSON schema the pool
keeps — `properties` maps a field name to that property's optional
`type` string (the only part of a property the pool ever reads). -/
structure ToolSchema where
  type : Option String := none
  properties : Option (List (String × Option String)) := none
  required : Option (List String) := none
deriving DecidableEq

/-- One tool descriptor of a `listTools` discovery result. -/
structure ToolDecl where
  name : String
  description : Option String := none
  inputSchema : Option ToolSchema := none
deriving DecidableEq

/-- One fragment of a call result's `content` array (`src/index.ts` reads
only the `text` and `data` fields). -/
structure ContentItem where
  text : Option String := none
  data : Option String := none
deriving DecidableEq

/-- A `client.callTool` result as `src/index.ts` consumes it. -/
structure CallResult where
  content : Option (List ContentItem) := none
  isError : Option Bool := none
deriving DecidableEq

/-- `src/mcp-client.ts` `ClientEntry` (a pool Session): the client and the
transport it was built on are identified by the `transportId` the pool
allocated when it constructed them. -/
structure ClientEntry where
  config : ServerConfig
  transportId : Nat
  connected : Bool
  toolSchemas : List (String × ToolSchema)
deriving DecidableEq

/-- `String(err)` for an `Error` the pool itself constructs via
`new Error(msg)`. -/
def jsErrorString (msg : String) : String :=
  "Error: " ++ msg

/-- Does the character list start with the given needle? -/
def charsStartWith : List Char → List Char → Bool
  | [], _ => true
  | _ :: _, [] => false
  | n :: ns, h :: hs => n = h && charsStartWith ns hs

/-- Does the character list contain the needle as a contiguous run? -/
def charsContains (needle : List Char) : List Char → Bool
  | [] => needle.isEmpty
  | h :: hs => charsStartWith needle (h :: hs) || charsContains needle hs

/-- JS `String.prototype.includes`. -/
def strIncludes (hay needle : String) : Bool :=
  charsContains needle.data hay.data

/-- `McpClientPool.isConnectionError`: classify a failure by inspecting its
description `String(err)`. -/
def isConnectionError (msg : String) : Bool :=
  strIncludes msg "closed" || strIncludes msg "ECONNREFUSED" || strIncludes msg "EPIPE"
    || strIncludes msg "ETIMEDOUT" || strIncludes msg "ECONNRESET"
    || strIncludes msg "ENOTFOUND" || strIncludes msg "EHOSTUNREACH"

/-- The spec's seven transport-level connection-class failure categories
(closed channel, refused, reset, aborted, unreachable, no-route,
timed-out). -/
inductive TransportFailureKind where
  | closedChannel : TransportFailureKind
  | refused : TransportFailureKind
  | reset : TransportFailureKind
  | aborted : TransportFailureKind
  | unreachable : TransportFailureKind
  | noRoute : TransportFailureKind
  | timedOut : TransportFailureKind
deriving DecidableEq

/-- The description marker by which each transport-level failure category
is recognisable in `String(err)` (the POSIX error code its description
carries, or the word `closed` for a closed channel). -/
def kindMarker : TransportFailureKind → String
  | .closedChannel => "closed"
  | .refused => "ECONNREFUSED"
  | .reset => "ECONNRESET"
  | .aborted => "EPIPE"
  | .unreachable => "EHOSTUNREACH"
  | .noRoute => "ENOTFOUND"
  | .timedOut => "ETIMEDOUT"

/-- The warning tag `[mcp-adapter] ${serverName}/${toolName}`. -/
def warnTag (serverName toolName : String) : String :=
  "[mcp-adapter] " ++ serverName ++ "/" ++ toolName

/-- The `missing required field "<field>"` warning line. -/
def missingFieldMsg (pfx field : String) : String :=
  pfx ++ ": missing required field \"" ++ field ++ "\""

/-- The `field "<field>" expected <declared>, got <actual>` warning line
(the code prints the schema's declared type verbatim, e.g. `integer`). -/
def typeMismatchMsg (pfx field declared actual : String) : String :=
  pfx ++ ": field \"" ++ field ++ "\" expected " ++ declared ++ ", got " ++ actual

/-- The `integer`-is-`number` normalisation applied before comparing the
declared kind with `typeof obj[field]`. -/
def normalizeType (declared : String) : String :=
  if declared = "integer" then "number" else declared

/-- The `schema.required` loop of `warnOnSchemaViolations`. -/
def requiredWarnings (pfx : String) (args : JsValue) (req : List String) : List String :=
  req.filterMap fun field =>
    if hasField args field then none else some (missingFieldMsg pfx field)

/-- The `schema.properties` loop of `warnOnSchemaViolations`; a property
whose `type` is absent or `""` (falsy in JS) is skipped, as are fields
absent from `args` or holding `null`/`undefined`. -/
def propWarnings (pfx : String) (args : JsValue) (props : List (String × Option String)) :
    List String :=
  props.filterMap fun fp =>
    match fp.2 with
    | none => none
    | some declared =>
      if declared = "" then none
      else if hasField args fp.1 && !isNullish (getField args fp.1) then
        if jsTypeof (getField args fp.1) = normalizeType declared then none
        else some (typeMismatchMsg pfx fp.1 declared (jsTypeof (getField args fp.1)))
      else none

/-- `McpClientPool.warnOnSchemaViolations`: the list of `console.warn`
lines it emits, in order. -/
def warnOnSchemaViolations (serverName toolName : String) (args : JsValue)
    (schemas : List (String × ToolSchema)) : List String :=
  match jsMapGet schemas toolName with
  | none => []
  | some schema =>
    if isStructured args then
      requiredWarnings (warnTag serverName toolName) args (schema.required.getD [])
        ++ propWarnings (warnTag serverName toolName) args (schema.properties.getD [])
    else []

/-- The pool's observable state: the `clients` map plus an instrumentation
trace (how many operations of each kind were issued so far, which
transports `transport.close` was invoked on, and the `console.warn`
lines of the schema advisory).  `nextTid` allocates identities for the
client/transport pairs `connect` constructs. -/
structure PoolState where
  clients : List (String × ClientEntry) := []
  nextTid : Nat := 0
  connectCount : Nat := 0
  callCount : Nat := 0
  listCount : Nat := 0
  closeCount : Nat := 0
  closedTids : List Nat := []
  warnings : List String := []
deriving DecidableEq

/-- Outcomes supplied by the MCP SDK client and the transports, indexed by
how many operations of that kind the pool has issued so far.  An
`Except.error` is the thrown JS value rendered as `String(err)`. -/
structure Env where
  connectOutcome : Nat → Except String Unit
  callOutcome : Nat → Except String CallResult
  listOutcome : Nat → Except String (List ToolDecl)
  closeOutcome : Nat → Except String Unit

/-- `await entry.transport.close?.()`: the transport's outcome, with the
close attempt recorded; both call sites swallow the `Except.error` case. -/
def closeTransport (env : Env) (st : PoolState) (tid : Nat) : Except String Unit × PoolState :=
  (env.closeOutcome st.closeCount,
   { st with closeCount := st.closeCount + 1, closedTids := st.closedTids ++ [tid] })

/-- `McpClientPool.connect`: build a client and a transport from the
descriptor, perform the handshake (`client.connect`), register the
`onerror`/`onclose` listeners (modelled by `markDisconnected` below being
externally invocable), and register the entry under `config.name`,
replacing any prior entry.  Returns the new transport's identity. -/
def connect (env : Env) (st : PoolState) (config : ServerConfig) :
    Except String Nat × PoolState :=
  let tid := st.nextTid
  let st1 := { st with nextTid := st.nextTid + 1, connectCount := st.connectCount + 1 }
  match env.connectOutcome st.connectCount with
  | .error e => (.error e, st1)
  | .ok _ =>
    let fresh : ClientEntry :=
      { config := config, transportId := tid, connected := true, toolSchemas := [] }
    (.ok tid, { st1 with clients := jsMapSet st1.clients config.name fresh })

/-- `McpClientPool.markDisconnected`: the body of the `onerror`/`onclose`
transport callbacks — flips the entry's `connected` flag, if any. -/
def markDisconnected (st : PoolState) (serverName : String) : PoolState :=
  match jsMapGet st.clients serverName with
  | none => st
  | some entry =>
    { st with clients := jsMapSet st.clients serverName ({ entry with connected := false }) }

/-- `listTools` absorbing discovered schemas:
`for (const tool of result.tools) if (tool.inputSchema) entry.toolSchemas.set(...)`. -/
def absorbSchemas (schemas : List (String × ToolSchema)) :
    List ToolDecl → List (String × ToolSchema)
  | [] => schemas
  | t :: ts =>
    match t.inputSchema with
    | some s => absorbSchemas (jsMapSet schemas t.name s) ts
    | none => absorbSchemas schemas ts

/-- `McpClientPool.listTools`. -/
def listTools (env : Env) (st : PoolState) (serverName : String) :
    Except String (List ToolDecl) × PoolState :=
  match jsMapGet st.clients serverName with
  | none => (.error (jsErrorString ("Unknown server: " ++ serverName)), st)
  | some entry =>
    let st1 := { st with listCount := st.listCount + 1 }
    match env.listOutcome st.listCount with
    | .error e => (.error e, st1)
    | .ok tools =>
      let entry1 := { entry with toolSchemas := absorbSchemas entry.toolSchemas tools }
      (.ok tools, { st1 with clients := jsMapSet st1.clients serverName entry1 })

/-- One `client.callTool(...)` issue over the wire (with
progress-keepalive options; those do not change the outcome oracle). -/
def attemptCall (env : Env) (st : PoolState) : Except String CallResult × PoolState :=
  (env.callOutcome st.callCount, { st with callCount := st.callCount + 1 })

/-- `McpClientPool.reconnect`: best-effort close of the old transport
(errors swallowed and logged), removal from the pool, then a fresh
`connect` from the entry's original descriptor. -/
def reconnect (env : Env) (st : PoolState) (serverName : String) :
    Except String Unit × PoolState :=
  match jsMapGet st.clients serverName with
  | none => (.ok (), st)
  | some entry =>
    let st1 := (closeTransport env st entry.transportId).2
    let st2 := { st1 with clients := jsMapDelete st1.clients serverName }
    match connect env st2 entry.config with
    | (.error e, st3) => (.error e, st3)
    | (.ok _, st3) => (.ok (), st3)

/-- `McpClientPool.callTool`: schema advisory, one call attempt, and on a
failure that is connection-class (or on an entry already marked
disconnected) one reconnect-and-retry. -/
def callTool (env : Env) (st : PoolState) (serverName toolName : String) (args : JsValue) :
    Except String CallResult × PoolState :=
  match jsMapGet st.clients serverName with
  | none => (.error (jsErrorString ("Unknown server: " ++ serverName)), st)
  | some entry =>
    let st1 := { st with warnings := st.warnings ++
      warnOnSchemaViolations serverName toolName args entry.toolSchemas }
    match attemptCall env st1 with
    | (.ok r, st2) => (.ok r, st2)
    | (.error err, st2) =>
      if !entry.connected || isConnectionError err then
        match reconnect env st2 serverName with
        | (.error e, st3) => (.error e, st3)
        | (.ok _, st3) =>
          match jsMapGet st3.clients serverName with
          | none => (.error (jsErrorString ("Failed to reconnect to " ++ serverName)), st3)
          | some _ => attemptCall env st3
      else (.error err, st2)

/-- The `{connected: boolean}` record `getStatus` returns. -/
structure Status where
  connected : Bool
deriving DecidableEq

/-- `McpClientPool.getStatus`: `{ connected: entry?.connected ?? false }`;
total, hence it never fails. -/
def getStatus (st : PoolState) (serverName : String) : Status :=
  match jsMapGet st.clients serverName with
  | none => { connected := false }
  | some entry => { connected := entry.connected }

/-- `McpClientPool.close`: best-effort transport shutdown (the
`Except.error` outcome of `closeTransport` is discarded — close errors
are swallowed) followed by unconditional removal; total, hence it never
throws. -/
def close (env : Env) (st : PoolState) (serverName : String) : PoolState :=
  match jsMapGet st.clients serverName with
  | none => st
  | some entry =>
    let st1 := (closeTransport env st entry.transportId).2
    { st1 with clients := jsMapDelete st1.clients serverName }

/-- The iteration of `closeAll` over a key list. -/
def closeAllAux (env : Env) : PoolState → List String → PoolState
  | st, [] => st
  | st, k :: ks => closeAllAux env (close env st k) ks

/-- `McpClientPool.closeAll`: close every tracked identity (`close`
deletes exactly the key being visited, so iterating the live `Map` keys
equals iterating their snapshot). -/
def closeAll (env : Env) (st : PoolState) : PoolState :=
  closeAllAux env st (jsMapKeys st.clients)

/-- One `{type: "text", text}` fragment of a host-facing result. -/
structure HostContent where
  type : String
  text : String
deriving DecidableEq

/-- The `{content: [{type: "text", text}], isError}` value the registered
`execute` entry points return to the host. -/
structure HostResult where
  content : List HostContent
  isError : Option Bool
deriving DecidableEq

/-- `src/index.ts`: `content?.map((c) => c.text ?? c.data ?? "").join("\n") ?? ""`. -/
def joinedText (r : CallResult) : String :=
  match r.content with
  | none => ""
  | some items => String.intercalate "\n" (items.map fun c => c.text.getD (c.data.getD ""))

/-- `src/index.ts`: reshape a pool call result for the host. -/
def reshapeResult (r : CallResult) : HostResult :=
  { content := [{ type := "text", text := joinedText r }], isError := r.isError }

/-- The shared tail of both `execute` entry points: delegate to
`pool.callTool` and reshape, propagating a thrown error to the host. -/
def invokeAndReshape (env : Env) (st : PoolState) (server : ServerConfig)
    (toolName : String) (params : JsValue) : Except String HostResult × PoolState :=
  match callTool env st server.name toolName params with
  | (.error e, st') => (.error e, st')
  | (.ok r, st') => (.ok (reshapeResult r), st')

/-- `src/index.ts` cache-phase `execute` (lines 77–93): lazy-connect —
if the server is not currently connected, `connect` then `listTools` —
then delegate to `callTool`. -/
def cacheExecute (env : Env) (st : PoolState) (server : ServerConfig)
    (toolName : String) (params : JsValue) : Except String HostResult × PoolState :=
  if (getStatus st server.name).connected then
    invokeAndReshape env st server toolName params
  else
    match connect env st server with
    | (.error e, st1) => (.error e, st1)
    | (.ok _, st1) =>
      match listTools env st1 server.name with
      | (.error e, st2) => (.error e, st2)
      | (.ok _, st2) => invokeAndReshape env st2 server toolName params

/-- `src/index.ts` service-phase `execute` (lines 133–143): direct
delegation to `callTool`, with no lazy-connect step. -/
def serviceExecute (env : Env) (st : PoolState) (server : ServerConfig)
    (toolName : String) (params : JsValue) : Except String HostResult × PoolState :=
  invokeAndReshape env st server toolName params

/-! ## Concrete instances used by witnesses and counterexamples -/

/-- An environment in which every SDK operation succeeds (calls return the
empty result). -/
def okEnv : Env where
  connectOutcome := fun _ => .ok ()
  callOutcome := fun _ => .ok {}
  listOutcome := fun _ => .ok []
  closeOutcome := fun _ => .ok ()

/-- A demo stdio descriptor. -/
def demoCfg : ServerConfig :=
  { name := "srv", transport := "stdio", command := some "cmd" }

/-- A demo live entry holding transport 0 and a cached schema. -/
def demoEntry : ClientEntry :=
  { config := demoCfg, transportId := 0, connected := true,
    toolSchemas := [("old_tool", { type := some "object" })] }

/-- A demo pool tracking `demoEntry` under `srv`. -/
def demoSt : PoolState :=
  { clients := [("srv", demoEntry)], nextTid := 1 }

/-- An environment whose transport `close` always throws. -/
def failCloseEnv : Env :=
  { okEnv with closeOutcome := fun _ => .error "Error: close failed" }

/-- A one-fragment text call result. -/
def okTextResult : CallResult :=
  { content := some [{ text := some "ok!" }] }

/-- Call outcomes that fail the first `n` calls with a connection-class
error and succeed from the `n+1`-th on. -/
def failFirst (n : Nat) (k : Nat) : Except String CallResult :=
  if k < n then .error "Error: Connection closed" else .ok okTextResult

/-- An environment whose first call fails with a connection-class error
and whose second call succeeds. -/
def retryEnv : Env :=
  { okEnv with callOutcome := failFirst 1 }

/-- An environment whose first two calls fail with connection-class
errors (succeeding only from the third on). -/
def retry2Env : Env :=
  { okEnv with callOutcome := failFirst 2 }

/-- An environment whose calls fail with an application-level (non
connection-class) error. -/
def appErrEnv : Env :=
  { okEnv with callOutcome := fun _ => .error "Error: tool execution failed" }

/-- An environment whose first call fails with a connection-class error
and whose reconnect handshake then fails too. -/
def deadEnv : Env :=
  { okEnv with
      callOutcome := fun _ => .error "Error: Connection closed",
      connectOutcome := fun _ => .error "Error: spawn ENOENT" }

/-- An environment whose calls return a one-fragment text result. -/
def textEnv : Env :=
  { okEnv with callOutcome := fun _ => .ok okTextResult }

/-- The spec's Schema Advisory example schema
`required: ["city"], properties: {city: {type: "string"}}`. -/
def citySchema : ToolSchema :=
  { type := some "object", properties := some [("city", some "string")],
    required := some ["city"] }

/-- A schema table holding `citySchema` for tool `get_weather`. -/
def cityTable : List (String × ToolSchema) :=
  [("get_weather", citySchema)]

/-- A schema whose only declared-and-required field name collides with an
`Object.prototype` member. -/
def protoSchema : ToolSchema :=
  { type := some "object", properties := some [("toString", some "string")],
    required := some ["toString"] }

/-- A schema table holding `protoSchema` for tool `render`. -/
def protoTable : List (String × ToolSchema) :=
  [("render", protoSchema)]

/-- `demoEntry` with its schema table swapped for `cityTable`. -/
def schemaSwapEntry : ClientEntry :=
  { demoEntry with toolSchemas := cityTable }

/-- `demoSt` with `srv`'s schema table swapped for `cityTable`. -/
def schemaSwapSt : PoolState :=
  { demoSt with clients := jsMapSet demoSt.clients "srv" schemaSwapEntry }

/-! ## Association-list map toolkit -/

@[simp]
theorem jsMapGet_set_self {α : Type} (m : List (String × α)) (k : String) (v : α) :
    jsMapGet (jsMapSet m k v) k = some v := by
  induction m with
  | nil => simp [jsMapSet, jsMapGet]
  | cons p rest ih =>
    by_cases h : p.1 = k
    · simp [jsMapSet, h, jsMapGet]
    · simp [jsMapSet, h, jsMapGet, ih]

@[simp]
theorem jsMapDelete_set {α : Type} (m : List (String × α)) (k : String) (v : α) :
    jsMapDelete (jsMapSet m k v) k = jsMapDelete m k := by
  induction m with
  | nil => simp [jsMapSet, jsMapDelete]
  | cons p rest ih =>
    by_cases h : p.1 = k
    · simp [jsMapSet, h, jsMapDelete]
    · simp [jsMapSet, h, jsMapDelete, ih]

theorem mem_jsMapKeys_set {α : Type} (m : List (String × α)) (k a : String) (v : α) :
    a ∈ jsMapKeys (jsMapSet m k v) ↔ a ∈ jsMapKeys m ∨ a = k := by
  induction m with
  | nil => simp [jsMapSet, jsMapKeys]
  | cons p rest ih =>
    by_cases h : p.1 = k
    · subst h
      simp only [jsMapSet, jsMapKeys, List.map_cons, List.mem_cons, if_true, eq_self_iff_true]
      tauto
    · simp only [jsMapSet, if_neg h, jsMapKeys, List.map_cons, List.mem_cons] at ih ⊢
      rw [ih]
      tauto

theorem nodup_jsMapKeys_set {α : Type} (m : List (String × α)) (k : String) (v : α)
    (h : (jsMapKeys m).Nodup) : (jsMapKeys (jsMapSet m k v)).Nodup := by
  induction m with
  | nil => simp [jsMapSet, jsMapKeys]
  | cons p rest ih =>
    simp only [jsMapKeys, List.map_cons, List.nodup_cons] at h
    by_cases hk : p.1 = k
    · subst hk
      simpa [jsMapSet, jsMapKeys, List.nodup_cons] using h
    · simp only [jsMapSet, if_neg hk, jsMapKeys, List.map_cons, List.nodup_cons]
      refine ⟨fun hmem => ?_, ih h.2⟩
      rcases (mem_jsMapKeys_set rest k p.1 v).1 hmem with h' | h'
      · exact h.1 h'
      · exact hk h'

theorem jsMapKeys_delete_sublist {α : Type} (m : List (String × α)) (k : String) :
    (jsMapKeys (jsMapDelete m k)).Sublist (jsMapKeys m) := by
  induction m with
  | nil => simp [jsMapDelete, jsMapKeys]
  | cons p rest ih =>
    by_cases h : p.1 = k
    · simp only [jsMapDelete, if_pos h, jsMapKeys, List.map_cons]
      exact (List.sublist_cons_self _ _)
    · simp only [jsMapDelete, if_neg h, jsMapKeys, List.map_cons]
      exact ih.cons₂ _

theorem nodup_jsMapKeys_delete {α : Type} (m : List (String × α)) (k : String)
    (h : (jsMapKeys m).Nodup) : (jsMapKeys (jsMapDelete m k)).Nodup :=
  h.sublist (jsMapKeys_delete_sublist m k)

theorem jsMapGet_eq_none_of_not_mem {α : Type} (m : List (String × α)) (k : String)
    (h : k ∉ jsMapKeys m) : jsMapGet m k = none := by
  induction m with
  | nil => simp [jsMapGet]
  | cons p rest ih =>
    simp only [jsMapKeys, List.map_cons, List.mem_cons, not_or] at h
    simp only [jsMapGet]
    rw [if_neg fun hh => h.1 hh.symm]
    exact ih fun hm => h.2 hm

theorem jsMapGet_delete_self {α : Type} (m : List (String × α)) (k : String)
    (h : (jsMapKeys m).Nodup) : jsMapGet (jsMapDelete m k) k = none := by
  induction m with
  | nil => simp [jsMapDelete, jsMapGet]
  | cons p rest ih =>
    simp only [jsMapKeys, List.map_cons, List.nodup_cons] at h
    by_cases hk : p.1 = k
    · subst hk
      simp only [jsMapDelete, if_pos rfl]
      exact jsMapGet_eq_none_of_not_mem rest p.1 h.1
    · simp only [jsMapDelete, if_neg hk, jsMapGet]
      exact ih h.2

theorem jsMapGet_delete_ne {α : Type} (m : List (String × α)) (k k' : String)
    (h : k ≠ k') : jsMapGet (jsMapDelete m k) k' = jsMapGet m k' := by
  induction m with
  | nil => simp [jsMapDelete, jsMapGet]
  | cons p rest ih =>
    by_cases hk : p.1 = k
    · subst hk
      simp [jsMapDelete, jsMapGet, h]
    · simp only [jsMapDelete, if_neg hk, jsMapGet]
      simp [ih]

theorem jsMapGet_set_ne {α : Type} (m : List (String × α)) (k k' : String) (v : α)
    (h : k ≠ k') : jsMapGet (jsMapSet m k v) k' = jsMapGet m k' := by
  induction m with
  | nil => simp [jsMapSet, jsMapGet, h]
  | cons p rest ih =>
    by_cases hk : p.1 = k
    · subst hk
      simp [jsMapSet, jsMapGet, h]
    · simp only [jsMapSet, if_neg hk, jsMapGet]
      simp [ih]

/-! ## Pool-level helper lemmas -/

theorem close_closedTids_mono (env : Env) (st : PoolState) (s : String) :
    st.closedTids ⊆ (close env st s).closedTids := by
  cases h : jsMapGet st.clients s
  · simp [close, h]
  · simp only [close, h, closeTransport]
    exact List.subset_append_left _ _

theorem closeAllAux_closedTids_mono (env : Env) :
    ∀ ks st, st.closedTids ⊆ (closeAllAux env st ks).closedTids := by
  intro ks
  induction ks with
  | nil => intro st; simp [closeAllAux]
  | cons k ks ih =>
    intro st
    simp only [closeAllAux]
    exact (close_closedTids_mono env st k).trans (ih (close env st k))

theorem closeAllAux_closes_everything (env : Env) :
    ∀ ks st, jsMapKeys st.clients = ks →
      (closeAllAux env st ks).clients = [] ∧
      ∀ p ∈ st.clients, p.2.transportId ∈ (closeAllAux env st ks).closedTids := by
  intro ks
  induction ks with
  | nil =>
    intro st h
    have hc : st.clients = [] := List.map_eq_nil_iff.1 h
    refine ⟨by simpa [closeAllAux] using hc, ?_⟩
    intro p hp
    rw [hc] at hp
    cases hp
  | cons k ks ih =>
    intro st h
    cases hc : st.clients with
    | nil => rw [hc] at h; simp [jsMapKeys] at h
    | cons q rest =>
      rw [hc] at h
      simp only [jsMapKeys, List.map_cons, List.cons.injEq] at h
      obtain ⟨hq, hrest⟩ := h
      have hclients : (close env st k).clients = rest := by
        simp [close, hc, jsMapGet, jsMapDelete, hq, closeTransport]
      have htids : (close env st k).closedTids = st.closedTids ++ [q.2.transportId] := by
        simp [close, hc, jsMapGet, jsMapDelete, hq, closeTransport]
      have hkeys : jsMapKeys (close env st k).clients = ks := by
        rw [hclients]; exact hrest
      have ihc := ih (close env st k) hkeys
      simp only [closeAllAux]
      refine ⟨ihc.1, ?_⟩
      intro p hp
      rcases List.mem_cons.1 hp with rfl | hp'
      · have h1 : p.2.transportId ∈ (close env st k).closedTids := by
          rw [htids]; simp
        exact closeAllAux_closedTids_mono env ks (close env st k) h1
      · have := ihc.2 p (by rw [hclients]; exact hp')
        exact this

theorem isConnectionError_iff_marker (msg : String) :
    isConnectionError msg = true ↔
      ∃ k : TransportFailureKind, strIncludes msg (kindMarker k) = true := by
  constructor
  · intro h
    unfold isConnectionError at h
    rw [Bool.or_eq_true, Bool.or_eq_true, Bool.or_eq_true, Bool.or_eq_true,
      Bool.or_eq_true, Bool.or_eq_true] at h
    rcases h with ((((((h | h) | h) | h) | h) | h) | h)
    · exact ⟨.closedChannel, h⟩
    · exact ⟨.refused, h⟩
    · exact ⟨.aborted, h⟩
    · exact ⟨.timedOut, h⟩
    · exact ⟨.reset, h⟩
    · exact ⟨.noRoute, h⟩
    · exact ⟨.unreachable, h⟩
  · rintro ⟨k, hk⟩
    cases k <;> simp only [kindMarker] at hk
    all_goals unfold isConnectionError
    all_goals rw [hk]
    all_goals simp

theorem invokeAndReshape_ok_shape (env : Env) (st : PoolState) (server : ServerConfig)
    (toolName : String) (params : JsValue) (r : HostResult)
    (h : (invokeAndReshape env st server toolName params).1 = .ok r) :
    ∃ txt, r.content = [{ type := "text", text := txt }] := by
  rcases hc : callTool env st server.name toolName params with ⟨res, st'⟩
  unfold invokeAndReshape at h
  rw [hc] at h
  cases res with
  | error e => simp at h
  | ok rr =>
    simp at h
    exact ⟨joinedText rr, by rw [← h]; rfl⟩

/-! ## Claims -/

/-- C5: for every identity with no session in the pool — in particular
every identity never connected — `getStatus` returns `{connected: false}`
(and, being a total function, never fails), while `callTool` (invoke) and
`listTools` fail with the `Unknown server` error, leaving the pool state
untouched. -/
theorem c5_unknown_identity (env : Env) (st : PoolState) (s toolName : String)
    (args : JsValue) (h : jsMapGet st.clients s = none) :
    getStatus st s = { connected := false } ∧
    callTool env st s toolName args =
      (.error (jsErrorString ("Unknown server: " ++ s)), st) ∧
    listTools env st s = (.error (jsErrorString ("Unknown server: " ++ s)), st) := by
  refine ⟨?_, ?_, ?_⟩ <;> simp [getStatus, callTool, listTools, h]

/-- Witness for C5: the never-connected identity `ghost` in the empty pool. -/
theorem c5_witness :
    getStatus {} "ghost" = { connected := false } ∧
    callTool okEnv {} "ghost" "t" (JsValue.obj []) =
      (.error (jsErrorString ("Unknown server: " ++ "ghost")), {}) ∧
    listTools okEnv {} "ghost" = (.error (jsErrorString ("Unknown server: " ++ "ghost")), {}) :=
  c5_unknown_identity okEnv {} "ghost" "t" (JsValue.obj []) rfl

/-- C6: `close` on an identity with no session is a no-op that does not
throw (it is total and returns the state unchanged); on an existing
session it performs a best-effort transport shutdown — the theorem holds
for every `Env`, including ones whose `closeOutcome` throws, because the
exception is swallowed — and unconditionally removes the entry;
`closeAll` empties the pool and closes every tracked session's transport,
a close failure on one server never preventing the rest (again `Env` is
arbitrary). -/
theorem c6_close_idempotent_best_effort :
    (∀ env st s, jsMapGet st.clients s = none → close env st s = st) ∧
    (∀ env st s entry, jsMapGet st.clients s = some entry →
      (jsMapKeys st.clients).Nodup →
      jsMapGet (close env st s).clients s = none ∧
      entry.transportId ∈ (close env st s).closedTids) ∧
    (∀ env st, (closeAll env st).clients = [] ∧
      ∀ p ∈ st.clients, p.2.transportId ∈ (closeAll env st).closedTids) := by
  refine ⟨?_, ?_, ?_⟩
  · intro env st s h
    simp [close, h]
  · intro env st s entry h hnd
    constructor
    · simp only [close, h, closeTransport]
      exact jsMapGet_delete_self st.clients s hnd
    · simp [close, h, closeTransport]
  · intro env st
    exact closeAllAux_closes_everything env (jsMapKeys st.clients) st rfl

/-- Witness for C6: closing the unknown identity `ghost` is a no-op, and
closing `srv` — in an environment whose transport `close` throws —
still removes the entry and records the transport as closed. -/
theorem c6_witness :
    close failCloseEnv {} "ghost" = {} ∧
    jsMapGet (close failCloseEnv demoSt "srv").clients "srv" = none ∧
    demoEntry.transportId ∈ (close failCloseEnv demoSt "srv").closedTids := by
  refine ⟨c6_close_idempotent_best_effort.1 failCloseEnv {} "ghost" rfl, ?_, ?_⟩
  · exact (c6_close_idempotent_best_effort.2.1 failCloseEnv demoSt "srv" demoEntry rfl
      (by decide)).1
  · exact (c6_close_idempotent_best_effort.2.1 failCloseEnv demoSt "srv" demoEntry rfl
      (by decide)).2

/-- C7: a successful `reconnect` replaces the session wholesale: the pool
then holds a brand-new entry (transport id `st.nextTid`, fresh relative
to the pool's allocation counter) built from the original descriptor,
whose schema mapping is empty even if the old session had cached schemas;
the old transport was closed and the old session object is no longer
held; and keys stay distinct, so at most one session per identity
exists. -/
theorem c7_reconnect_replaces_wholesale (env : Env) (st : PoolState) (s : String)
    (entry : ClientEntry) (hget : jsMapGet st.clients s = some entry)
    (hname : entry.config.name = s)
    (hok : env.connectOutcome st.connectCount = .ok ()) :
    (reconnect env st s).1 = .ok () ∧
    jsMapGet (reconnect env st s).2.clients s =
      some { config := entry.config, transportId := st.nextTid, connected := true,
             toolSchemas := [] } ∧
    entry.transportId ∈ (reconnect env st s).2.closedTids ∧
    (entry.transportId < st.nextTid →
      jsMapGet (reconnect env st s).2.clients s ≠ some entry) ∧
    ((jsMapKeys st.clients).Nodup →
      (jsMapKeys (reconnect env st s).2.clients).Nodup) := by
  have hmain : reconnect env st s =
      (.ok (), { st with
        closeCount := st.closeCount + 1,
        closedTids := st.closedTids ++ [entry.transportId],
        nextTid := st.nextTid + 1,
        connectCount := st.connectCount + 1,
        clients := jsMapSet (jsMapDelete st.clients s) entry.config.name
          { config := entry.config, transportId := st.nextTid, connected := true,
            toolSchemas := [] } }) := by
    simp [reconnect, closeTransport, connect, hget, hok]
  refine ⟨by rw [hmain], ?_, by rw [hmain]; simp, ?_, ?_⟩
  · rw [hmain]
    simp [hname]
  · intro hlt habs
    rw [hmain] at habs
    simp [hname] at habs
    have htr := congrArg ClientEntry.transportId habs
    simp at htr
    omega
  · intro hnd
    rw [hmain]
    exact nodup_jsMapKeys_set _ _ _ (nodup_jsMapKeys_delete st.clients s hnd)

/-- Witness for C7: forced reconnect of `srv`, whose old session cached a
schema for `old_tool`; the new session's schema map is empty. -/
theorem c7_witness :
    (reconnect okEnv demoSt "srv").1 = .ok () ∧
    jsMapGet (reconnect okEnv demoSt "srv").2.clients "srv" =
      some { config := demoCfg, transportId := 1, connected := true, toolSchemas := [] } ∧
    demoEntry.transportId ∈ (reconnect okEnv demoSt "srv").2.closedTids :=
  ⟨(c7_reconnect_replaces_wholesale okEnv demoSt "srv" demoEntry rfl rfl rfl).1,
   (c7_reconnect_replaces_wholesale okEnv demoSt "srv" demoEntry rfl rfl rfl).2.1,
   (c7_reconnect_replaces_wholesale okEnv demoSt "srv" demoEntry rfl rfl rfl).2.2.1⟩

/-- `connect` never closes anything: its trace of closed transports is
exactly the one it started from. -/
theorem connect_preserves_closedTids (env : Env) (st : PoolState) (cfg : ServerConfig) :
    (connect env st cfg).2.closedTids = st.closedTids := by
  unfold connect
  cases h : env.connectOutcome st.connectCount <;> simp

/-- C8 counterexample: in a pool already tracking a live session for
`srv` (transport 0), calling `connect` again for `srv` replaces the
entry with a brand-new session (transport 1) — yet the run's trace of
closed transports is empty: the replaced session's transport was leaked,
refuting the claim that every replaced session's transport is closed. -/
theorem c8_counterexample :
    jsMapGet demoSt.clients "srv" = some demoEntry ∧
    (connect okEnv demoSt demoCfg).2.clients =
      [("srv", { config := demoCfg, transportId := 1, connected := true, toolSchemas := [] })] ∧
    (connect okEnv demoSt demoCfg).2.closedTids = [] := by
  refine ⟨rfl, ?_, rfl⟩
  rfl

/-- C8 amended: a session replaced on the `reconnect` path always has its
old transport closed (even when the fresh connect then fails), but
`connect` itself closes nothing — so a `connect` issued for an identity
that already has an entry replaces that entry without closing its
transport, leaking it. -/
theorem c8_amended_close_on_reconnect_only :
    (∀ env st s entry, jsMapGet st.clients s = some entry →
      entry.transportId ∈ (reconnect env st s).2.closedTids) ∧
    (∀ env st cfg, (connect env st cfg).2.closedTids = st.closedTids) := by
  constructor
  · intro env st s entry hget
    cases hc : env.connectOutcome st.connectCount with
    | error e => simp [reconnect, hget, closeTransport, connect, hc]
    | ok u => cases u; simp [reconnect, hget, closeTransport, connect, hc]
  · exact fun env st cfg => connect_preserves_closedTids env st cfg

/-- Witness for the amended C8: the reconnect path does close the
replaced transport of `srv`. -/
theorem c8_amended_witness :
    demoEntry.transportId ∈ (reconnect okEnv demoSt "srv").2.closedTids :=
  c8_amended_close_on_reconnect_only.1 okEnv demoSt "srv" demoEntry rfl

/-- C2: the pool classifies a failure as connection-class exactly when
its description carries the marker of one of the seven transport-level
failure categories (closed channel, refused, reset, aborted, unreachable,
no-route, timed-out) — and a failure carrying none of them (such as an
application-level tool error) never triggers reconnect: the call error
propagates as-is and the `connect` count stays unchanged. -/
theorem c2_connection_class_classification :
    (∀ msg, isConnectionError msg = true ↔
      ∃ k : TransportFailureKind, strIncludes msg (kindMarker k) = true) ∧
    (∀ env st s toolName args entry err,
      jsMapGet st.clients s = some entry → entry.connected = true →
      env.callOutcome st.callCount = .error err →
      (∀ k : TransportFailureKind, strIncludes err (kindMarker k) = false) →
      (callTool env st s toolName args).1 = .error err ∧
      (callTool env st s toolName args).2.connectCount = st.connectCount) := by
  constructor
  · exact isConnectionError_iff_marker
  · intro env st s toolName args entry err hget hconn hcall hmk
    have hnc : isConnectionError err = false := by
      cases hb : isConnectionError err
      · rfl
      · obtain ⟨k, hk⟩ := (isConnectionError_iff_marker err).1 hb
        rw [hmk k] at hk
        simp at hk
    constructor <;> simp [callTool, attemptCall, hget, hcall, hconn, hnc]

/-- Witness for C2: an application-level tool failure on a live session
propagates unmodified and triggers no reconnect. -/
theorem c2_witness :
    (callTool appErrEnv demoSt "srv" "t" (JsValue.obj [])).1 =
      .error "Error: tool execution failed" ∧
    (callTool appErrEnv demoSt "srv" "t" (JsValue.obj [])).2.connectCount = 0 :=
  c2_connection_class_classification.2 appErrEnv demoSt "srv" "t" (JsValue.obj [])
    demoEntry "Error: tool execution failed" rfl rfl rfl
    (by intro k; cases k <;> decide)

/-- C10 (implicit): when the fresh connect of the reconnect-and-retry
path itself fails, that connect failure — not the original invocation
error and not the `Failed to reconnect` error — propagates to the
caller, and the pool is left with no session for the identity (the old
entry was removed before the connect attempt), so the failed invoke is
not atomic with respect to pool state. -/
theorem c10_failed_reconnect_propagates (env : Env) (st : PoolState)
    (s toolName : String) (args : JsValue) (entry : ClientEntry) (err ce : String)
    (hget : jsMapGet st.clients s = some entry)
    (hnd : (jsMapKeys st.clients).Nodup)
    (hcall : env.callOutcome st.callCount = .error err)
    (hcls : (!entry.connected || isConnectionError err) = true)
    (hconn : env.connectOutcome st.connectCount = .error ce) :
    (callTool env st s toolName args).1 = .error ce ∧
    jsMapGet (callTool env st s toolName args).2.clients s = none := by
  constructor
  · simp [callTool, attemptCall, hget, hcall, hcls, reconnect, closeTransport, connect, hconn]
  · simp [callTool, attemptCall, hget, hcall, hcls, reconnect, closeTransport, connect, hconn]
    exact jsMapGet_delete_self st.clients s hnd

/-- Witness for C10: first call fails with a closed-channel error, the
reconnect handshake fails with `spawn ENOENT`; the latter propagates and
`srv` is gone from the pool. -/
theorem c10_witness :
    (callTool deadEnv demoSt "srv" "t" (JsValue.obj [])).1 = .error "Error: spawn ENOENT" ∧
    jsMapGet (callTool deadEnv demoSt "srv" "t" (JsValue.obj [])).2.clients "srv" = none :=
  c10_failed_reconnect_propagates deadEnv demoSt "srv" "t" (JsValue.obj []) demoEntry
    "Error: Connection closed" "Error: spawn ENOENT" rfl (by decide) rfl (by decide) rfl

/-- C1: `invoke` on an existing session performs at most one
reconnect-and-retry and never loops: (A) any one invocation issues at
most two transport calls and at most one connect; (B) a failure that is
neither connection-class nor on an already-disconnected session
propagates to the caller unmodified, the only state change being the
advisory log and the call counter — no reconnect; (C) when the session
was marked disconnected or the failure is connection-class, the pool
tears the old session down (closing its transport), reconnects once from
the original descriptor, and reissues the call exactly once, whose
outcome — success or failure — is returned verbatim; (D) if after the
reconnect no session exists under the identity, it fails with the
`Failed to reconnect` error. -/
theorem c1_at_most_one_reconnect (env : Env) (st : PoolState) (s toolName : String)
    (args : JsValue) (entry : ClientEntry)
    (hget : jsMapGet st.clients s = some entry) :
    ((callTool env st s toolName args).2.callCount ≤ st.callCount + 2 ∧
     (callTool env st s toolName args).2.connectCount ≤ st.connectCount + 1) ∧
    (∀ err, env.callOutcome st.callCount = .error err → entry.connected = true →
      isConnectionError err = false →
      callTool env st s toolName args =
        (.error err,
         { st with
            warnings := st.warnings ++
              warnOnSchemaViolations s toolName args entry.toolSchemas,
            callCount := st.callCount + 1 })) ∧
    (∀ err, env.callOutcome st.callCount = .error err →
      (!entry.connected || isConnectionError err) = true →
      entry.config.name = s →
      env.connectOutcome st.connectCount = .ok () →
      (callTool env st s toolName args).1 = env.callOutcome (st.callCount + 1) ∧
      (callTool env st s toolName args).2.callCount = st.callCount + 2 ∧
      (callTool env st s toolName args).2.connectCount = st.connectCount + 1 ∧
      entry.transportId ∈ (callTool env st s toolName args).2.closedTids) ∧
    (∀ err, env.callOutcome st.callCount = .error err →
      (!entry.connected || isConnectionError err) = true →
      (jsMapKeys st.clients).Nodup → entry.config.name ≠ s →
      env.connectOutcome st.connectCount = .ok () →
      (callTool env st s toolName args).1 =
        .error (jsErrorString ("Failed to reconnect to " ++ s))) := by
  refine ⟨?_, ?_, ?_, ?_⟩
  · cases hc : env.callOutcome st.callCount with
    | ok r =>
      constructor <;> simp [callTool, attemptCall, hget, hc]
    | error err =>
      cases hb : (!entry.connected || isConnectionError err) with
      | false =>
        constructor <;> simp [callTool, attemptCall, hget, hc, hb]
      | true =>
        cases hcn : env.connectOutcome st.connectCount with
        | error ce =>
          constructor <;>
            simp [callTool, attemptCall, hget, hc, hb, reconnect, closeTransport,
              connect, hcn]
        | ok u =>
          cases u
          by_cases hn : entry.config.name = s
          · constructor <;>
              simp [callTool, attemptCall, hget, hc, hb, reconnect, closeTransport,
                connect, hcn, hn]
          · cases hl : jsMapGet (jsMapDelete st.clients s) s with
            | none =>
              constructor <;>
                simp [callTool, attemptCall, hget, hc, hb, reconnect, closeTransport,
                  connect, hcn, jsMapGet_set_ne, hn, hl]
            | some e2 =>
              constructor <;>
                simp [callTool, attemptCall, hget, hc, hb, reconnect, closeTransport,
                  connect, hcn, jsMapGet_set_ne, hn, hl]
  · intro err hcall hconn hnc
    simp [callTool, attemptCall, hget, hcall, hconn, hnc]
  · intro err hcall hb hname hcn
    refine ⟨?_, ?_, ?_, ?_⟩ <;>
      simp [callTool, attemptCall, hget, hcall, hb, reconnect, closeTransport,
        connect, hcn, hname]
  · intro err hcall hb hnd hname hcn
    simp [callTool, attemptCall, hget, hcall, hb, reconnect, closeTransport,
      connect, hcn, jsMapGet_set_ne, hname,
      jsMapGet_delete_self st.clients s hnd]

/-- Witness for C1: with one simulated connection-class failure
(`N = 1`) `invoke` on `srv` reconnects once and the retried call
succeeds (two calls, one connect, old transport closed); with two
consecutive failures (`N = 2`) the retried call's error propagates —
no further retry. -/
theorem c1_witness :
    (callTool retryEnv demoSt "srv" "t" (JsValue.obj [])).1 = .ok okTextResult ∧
    (callTool retryEnv demoSt "srv" "t" (JsValue.obj [])).2.callCount = 2 ∧
    (callTool retryEnv demoSt "srv" "t" (JsValue.obj [])).2.connectCount = 1 ∧
    demoEntry.transportId ∈
      (callTool retryEnv demoSt "srv" "t" (JsValue.obj [])).2.closedTids ∧
    (callTool retry2Env demoSt "srv" "t" (JsValue.obj [])).1 =
      .error "Error: Connection closed" := by
  have h1 := (c1_at_most_one_reconnect retryEnv demoSt "srv" "t" (JsValue.obj [])
    demoEntry rfl).2.2.1 "Error: Connection closed" rfl (by decide) rfl rfl
  have h2 := (c1_at_most_one_reconnect retry2Env demoSt "srv" "t" (JsValue.obj [])
    demoEntry rfl).2.2.1 "Error: Connection closed" rfl (by decide) rfl rfl
  refine ⟨?_, h1.2.1, h1.2.2.1, h1.2.2.2, ?_⟩
  · rw [h1.1]; rfl
  · rw [h2.1]; rfl

/-- C3 counterexample: at schema `{required: ["toString"], properties:
{toString: {type: "string"}}}` and args `{}`, the check emits no
`missing required field "toString"` diagnostic even though the required
field is absent from the args as data, and instead emits
`field "toString" expected string, got function` for that very absent
field — because JS `field in obj` reaches the inherited
`Object.prototype.toString` method.  Both exactness parts of the claim
(missing-warning for each absent required field; mismatch-warning only
for fields present in the args) fail at this input. -/
theorem c3_counterexample :
    warnOnSchemaViolations "w" "render" (.obj []) protoTable =
      [typeMismatchMsg (warnTag "w" "render") "toString" "string" "function"] ∧
    missingFieldMsg (warnTag "w" "render") "toString" ∉
      warnOnSchemaViolations "w" "render" (.obj []) protoTable ∧
    hasField (.obj []) "toString" = true ∧
    jsMapGet (ownProps (.obj [])) "toString" = none :=
  ⟨rfl, by decide, rfl, rfl⟩

/-- C3 amended: a field counts as present exactly when JS `in` finds it —
as an own property or through the prototype chain (so a required field
named after an `Object.prototype` member is never reported missing, and
such a prototype-named field absent from the args as data is still
type-checked against the inherited member it reads, of runtime kind
`function`, or `object` for `__proto__`).  Relative to that membership
the advisory is exact: with a schema on file and structured args it
reports `missing required field "<f>"` for every required field not
found (a), and `field "<f>" expected <declared>, got <actual>` for every
declared field found with a non-null/undefined value whose runtime kind
differs from the declared kind, `integer` normalised to `number` (b);
conversely every emitted diagnostic is justified by one of those two
violations (c); no check fires without an on-file schema or on
unstructured args (d); and on the spec's `city` example the three
expected outcomes hold exactly (e). -/
theorem c3_amended_schema_advisory :
    (∀ s t args tbl sch f, jsMapGet tbl t = some sch → isStructured args = true →
      f ∈ sch.required.getD [] → hasField args f = false →
      missingFieldMsg (warnTag s t) f ∈ warnOnSchemaViolations s t args tbl) ∧
    (∀ s t args tbl sch f d, jsMapGet tbl t = some sch → isStructured args = true →
      (f, some d) ∈ sch.properties.getD [] → d ≠ "" →
      hasField args f = true → isNullish (getField args f) = false →
      jsTypeof (getField args f) ≠ normalizeType d →
      typeMismatchMsg (warnTag s t) f d (jsTypeof (getField args f)) ∈
        warnOnSchemaViolations s t args tbl) ∧
    (∀ s t args tbl msg, msg ∈ warnOnSchemaViolations s t args tbl →
      ∃ sch, jsMapGet tbl t = some sch ∧ isStructured args = true ∧
        ((∃ f, f ∈ sch.required.getD [] ∧ hasField args f = false ∧
            msg = missingFieldMsg (warnTag s t) f) ∨
         (∃ f d, (f, some d) ∈ sch.properties.getD [] ∧ d ≠ "" ∧
            hasField args f = true ∧ isNullish (getField args f) = false ∧
            jsTypeof (getField args f) ≠ normalizeType d ∧
            msg = typeMismatchMsg (warnTag s t) f d (jsTypeof (getField args f))))) ∧
    (∀ s t args tbl, jsMapGet tbl t = none → warnOnSchemaViolations s t args tbl = []) ∧
    (∀ s t args tbl, isStructured args = false →
      warnOnSchemaViolations s t args tbl = []) ∧
    (warnOnSchemaViolations "w" "get_weather" (.obj []) cityTable =
        [missingFieldMsg (warnTag "w" "get_weather") "city"] ∧
      strIncludes (missingFieldMsg (warnTag "w" "get_weather") "city")
        "missing required field \"city\"" = true ∧
      warnOnSchemaViolations "w" "get_weather" (.obj [("city", .num 5)]) cityTable =
        [typeMismatchMsg (warnTag "w" "get_weather") "city" "string" "number"] ∧
      strIncludes (typeMismatchMsg (warnTag "w" "get_weather") "city" "string" "number")
        "expected string, got number" = true ∧
      warnOnSchemaViolations "w" "get_weather" (.obj [("city", .str "Paris")]) cityTable
        = []) := by
  refine ⟨?_, ?_, ?_, ?_, ?_, rfl, by decide, rfl, by decide, rfl⟩
  · intro s t args tbl sch f hsch hstr hf habs
    simp only [warnOnSchemaViolations, hsch, hstr, if_true]
    refine List.mem_append_left _ (List.mem_filterMap.2 ⟨f, hf, ?_⟩)
    simp [habs]
  · intro s t args tbl sch f d hsch hstr hfp hd hhf hnn hmm
    simp only [warnOnSchemaViolations, hsch, hstr, if_true]
    refine List.mem_append_right _ (List.mem_filterMap.2 ⟨(f, some d), hfp, ?_⟩)
    simp [hd, hhf, hnn, hmm]
  · intro s t args tbl msg hmem
    unfold warnOnSchemaViolations at hmem
    cases hsch : jsMapGet tbl t with
    | none => rw [hsch] at hmem; simp at hmem
    | some sch =>
      rw [hsch] at hmem
      cases hstr : isStructured args with
      | false => rw [hstr] at hmem; simp at hmem
      | true =>
        rw [hstr] at hmem
        simp only [if_true] at hmem
        refine ⟨sch, rfl, rfl, ?_⟩
        rcases List.mem_append.1 hmem with hm | hm
        · left
          obtain ⟨f, hf, heq⟩ := List.mem_filterMap.1 hm
          cases hhf : hasField args f with
          | true => rw [hhf] at heq; rw [if_pos rfl] at heq; cases heq
          | false =>
            rw [hhf] at heq
            rw [if_neg (by simp)] at heq
            exact ⟨f, hf, hhf, (Option.some.inj heq).symm⟩
        · right
          obtain ⟨fp, hfp, heq⟩ := List.mem_filterMap.1 hm
          rcases fp with ⟨f, od⟩
          cases od with
          | none => simp [propWarnings] at heq
          | some d =>
            simp only at heq
            by_cases hd : d = ""
            · rw [if_pos hd] at heq; cases heq
            · rw [if_neg hd] at heq
              cases hb : (hasField args f && !isNullish (getField args f)) with
              | false => rw [hb] at heq; rw [if_neg (by simp)] at heq; cases heq
              | true =>
                rw [hb] at heq
                rw [if_pos rfl] at heq
                simp only [Bool.and_eq_true, Bool.not_eq_true'] at hb
                by_cases hmm : jsTypeof (getField args f) = normalizeType d
                · rw [if_pos hmm] at heq; cases heq
                · rw [if_neg hmm] at heq
                  exact ⟨f, d, hfp, hd, hb.1, hb.2, hmm, (Option.some.inj heq).symm⟩
  · intro s t args tbl h
    simp [warnOnSchemaViolations, h]
  · intro s t args tbl h
    unfold warnOnSchemaViolations
    cases hg : jsMapGet tbl t <;> simp [h]

/-- Witness for the amended C3: the missing-field diagnostic of the
`city` example, obtained through the general membership property. -/
theorem c3_witness :
    missingFieldMsg (warnTag "w" "get_weather") "city" ∈
      warnOnSchemaViolations "w" "get_weather" (JsValue.obj []) cityTable :=
  c3_amended_schema_advisory.1 "w" "get_weather" (JsValue.obj []) cityTable
    citySchema "city" rfl rfl (by decide) rfl

/-- C4: the Schema Advisory never blocks or alters an invocation: it is a
total function (it cannot raise), `callTool` on an existing session
always proceeds to attempt the underlying call whatever the args and
whatever (possibly malformed) schema is on file, every violation
surfaces only as appended warning-log lines, and the invocation's
outcome is completely independent of the stored schema table. -/
theorem c4_advisory_never_blocks :
    (∀ env st s toolName args entry, jsMapGet st.clients s = some entry →
      st.callCount + 1 ≤ (callTool env st s toolName args).2.callCount) ∧
    (∀ env st s toolName args, ∃ w,
      (callTool env st s toolName args).2.warnings = st.warnings ++ w) ∧
    (∀ env st s toolName args entry tbl, jsMapGet st.clients s = some entry →
      (callTool env
          { st with clients := jsMapSet st.clients s ({ entry with toolSchemas := tbl }) }
          s toolName args).1 =
        (callTool env st s toolName args).1) := by
  refine ⟨?_, ?_, ?_⟩
  · intro env st s toolName args entry hget
    cases hc : env.callOutcome st.callCount with
    | ok r => simp [callTool, attemptCall, hget, hc]
    | error err =>
      cases hb : (!entry.connected || isConnectionError err) with
      | false => simp [callTool, attemptCall, hget, hc, hb]
      | true =>
        cases hcn : env.connectOutcome st.connectCount with
        | error ce =>
          simp [callTool, attemptCall, hget, hc, hb, reconnect, closeTransport,
            connect, hcn]
        | ok u =>
          cases u
          by_cases hn : entry.config.name = s
          · simp [callTool, attemptCall, hget, hc, hb, reconnect, closeTransport,
              connect, hcn, hn]
          · cases hl : jsMapGet (jsMapDelete st.clients s) s with
            | none =>
              simp [callTool, attemptCall, hget, hc, hb, reconnect, closeTransport,
                connect, hcn, jsMapGet_set_ne, hn, hl]
            | some e2 =>
              simp [callTool, attemptCall, hget, hc, hb, reconnect, closeTransport,
                connect, hcn, jsMapGet_set_ne, hn, hl]
  · intro env st s toolName args
    cases hget : jsMapGet st.clients s with
    | none => exact ⟨[], by simp [callTool, hget]⟩
    | some entry =>
      refine ⟨warnOnSchemaViolations s toolName args entry.toolSchemas, ?_⟩
      cases hc : env.callOutcome st.callCount with
      | ok r => simp [callTool, attemptCall, hget, hc]
      | error err =>
        cases hb : (!entry.connected || isConnectionError err) with
        | false => simp [callTool, attemptCall, hget, hc, hb]
        | true =>
          cases hcn : env.connectOutcome st.connectCount with
          | error ce =>
            simp [callTool, attemptCall, hget, hc, hb, reconnect, closeTransport,
              connect, hcn]
          | ok u =>
            cases u
            by_cases hn : entry.config.name = s
            · simp [callTool, attemptCall, hget, hc, hb, reconnect, closeTransport,
                connect, hcn, hn]
            · cases hl : jsMapGet (jsMapDelete st.clients s) s with
              | none =>
                simp [callTool, attemptCall, hget, hc, hb, reconnect, closeTransport,
                  connect, hcn, jsMapGet_set_ne, hn, hl]
              | some e2 =>
                simp [callTool, attemptCall, hget, hc, hb, reconnect, closeTransport,
                  connect, hcn, jsMapGet_set_ne, hn, hl]
  · intro env st s toolName args entry tbl hget
    cases hc : env.callOutcome st.callCount with
    | ok r => simp [callTool, attemptCall, hget, hc]
    | error err =>
      cases hb : (!entry.connected || isConnectionError err) with
      | false => simp [callTool, attemptCall, hget, hc, hb]
      | true =>
        cases hcn : env.connectOutcome st.connectCount with
        | error ce =>
          simp [callTool, attemptCall, hget, hc, hb, reconnect, closeTransport,
            connect, hcn]
        | ok u =>
          cases u
          by_cases hn : entry.config.name = s
          · simp [callTool, attemptCall, hget, hc, hb, reconnect, closeTransport,
              connect, hcn, hn]
          · cases hl : jsMapGet (jsMapDelete st.clients s) s with
            | none =>
              simp [callTool, attemptCall, hget, hc, hb, reconnect, closeTransport,
                connect, hcn, jsMapGet_set_ne, hn, hl]
            | some e2 =>
              simp [callTool, attemptCall, hget, hc, hb, reconnect, closeTransport,
                connect, hcn, jsMapGet_set_ne, hn, hl]

/-- Witness for C4: on `srv` the call is attempted, and swapping the
stored schema table for `cityTable` leaves the invocation outcome
unchanged. -/
theorem c4_witness :
    demoSt.callCount + 1 ≤ (callTool okEnv demoSt "srv" "t" (JsValue.obj [])).2.callCount ∧
    (callTool okEnv schemaSwapSt "srv" "t" (JsValue.obj [])).1 =
      (callTool okEnv demoSt "srv" "t" (JsValue.obj [])).1 :=
  ⟨c4_advisory_never_blocks.1 okEnv demoSt "srv" "t" (JsValue.obj []) demoEntry rfl,
   c4_advisory_never_blocks.2.2 okEnv demoSt "srv" "t" (JsValue.obj []) demoEntry
     cityTable rfl⟩

/-- C9 counterexample: with every SDK operation succeeding, the
cache-phase entry point on a never-connected server lazily connects and
succeeds, but the service-phase entry point — also a tool entry point
registered with the host — performs no lazy-connect: it fails with the
`Unknown server` error without ever attempting a connect, refuting the
claim that every registered entry point performs lazy-connect. -/
theorem c9_counterexample :
    (serviceExecute textEnv {} demoCfg "t" (JsValue.obj [])).1 =
      .error (jsErrorString ("Unknown server: " ++ "srv")) ∧
    (serviceExecute textEnv {} demoCfg "t" (JsValue.obj [])).2.connectCount = 0 ∧
    (cacheExecute textEnv {} demoCfg "t" (JsValue.obj [])).1 =
      .ok { content := [{ type := "text", text := "ok!" }], isError := none } := by
  refine ⟨rfl, rfl, ?_⟩
  rfl

/-- C9 amended: every registered entry point takes structured args,
delegates to `callTool` and returns the `{content: [{type: "text",
text}], isError}` reshaping of its result; the cache-phase entry points
additionally perform lazy-connect — when the server is not connected
they `connect` and rediscover via `listTools` before invoking, and when
it is connected they behave exactly like the service-phase ones — while
the service-phase entry points delegate directly with no lazy-connect
step (on an unknown identity they propagate the `Unknown server` failure
with the pool state untouched). -/
theorem c9_amended_entry_points :
    (∀ env st server toolName params,
      (getStatus st server.name).connected = true →
      cacheExecute env st server toolName params =
        serviceExecute env st server toolName params) ∧
    (∀ env st server toolName params,
      (getStatus st server.name).connected = false →
      env.connectOutcome st.connectCount = .ok () →
      ∀ tools, env.listOutcome st.listCount = .ok tools →
      cacheExecute env st server toolName params =
        serviceExecute env (listTools env (connect env st server).2 server.name).2
          server toolName params ∧
      (listTools env (connect env st server).2 server.name).2.connectCount =
        st.connectCount + 1 ∧
      (listTools env (connect env st server).2 server.name).2.listCount =
        st.listCount + 1 ∧
      (getStatus (listTools env (connect env st server).2 server.name).2
        server.name).connected = true) ∧
    (∀ env st server toolName params,
      jsMapGet st.clients server.name = none →
      serviceExecute env st server toolName params =
        (.error (jsErrorString ("Unknown server: " ++ server.name)), st)) ∧
    (∀ env st server toolName params r st',
      callTool env st server.name toolName params = (.ok r, st') →
      serviceExecute env st server toolName params = (.ok (reshapeResult r), st')) ∧
    (∀ env st server toolName params r,
      (serviceExecute env st server toolName params).1 = .ok r →
      ∃ txt, r.content = [{ type := "text", text := txt }]) ∧
    (∀ env st server toolName params r,
      (cacheExecute env st server toolName params).1 = .ok r →
      ∃ txt, r.content = [{ type := "text", text := txt }]) := by
  refine ⟨?_, ?_, ?_, ?_, ?_, ?_⟩
  · intro env st server toolName params h
    simp [cacheExecute, serviceExecute, h]
  · intro env st server toolName params hns hcn tools hlt
    refine ⟨?_, ?_, ?_, ?_⟩
    · simp [cacheExecute, serviceExecute, hns, connect, hcn, listTools,
        jsMapGet_set_self, hlt]
    · simp [listTools, connect, hcn, jsMapGet_set_self, hlt]
    · simp [listTools, connect, hcn, jsMapGet_set_self, hlt]
    · simp [getStatus, listTools, connect, hcn, jsMapGet_set_self, hlt]
  · intro env st server toolName params h
    simp [serviceExecute, invokeAndReshape, callTool, h]
  · intro env st server toolName params r st' h
    simp [serviceExecute, invokeAndReshape, h]
  · intro env st server toolName params r h
    exact invokeAndReshape_ok_shape env st server toolName params r h
  · intro env st server toolName params r h
    unfold cacheExecute at h
    by_cases hcon : (getStatus st server.name).connected = true
    · rw [if_pos hcon] at h
      exact invokeAndReshape_ok_shape env st server toolName params r h
    · rw [if_neg hcon] at h
      rcases hc : connect env st server with ⟨cres, st1⟩
      rw [hc] at h
      cases cres with
      | error e => simp at h
      | ok tid =>
        dsimp only at h
        rcases hl : listTools env st1 server.name with ⟨lres, st2⟩
        rw [hl] at h
        cases lres with
        | error e => simp at h
        | ok tools => exact invokeAndReshape_ok_shape env st2 server toolName params r h

/-- Witness for the amended C9: on the connected pool `demoSt` the
cache-phase entry point behaves exactly like the service-phase one. -/
theorem c9_amended_witness :
    cacheExecute textEnv demoSt demoCfg "t" (JsValue.obj []) =
      serviceExecute textEnv demoSt demoCfg "t" (JsValue.obj []) :=
  c9_amended_entry_points.1 textEnv demoSt demoCfg "t" (JsValue.obj []) rfl

end Mcp
